import Mathlib

/-!
Verification development for the minigpu buffer engine and compute-pipeline
cache (C++ sources under minigpu_ffi/src).  The definitions below are shallow
embeddings of the corresponding C++ functions; each doc comment names the
source function embedded.  Functions of the vendored gpu helper library
(gpuh.h: NumType sizes, toGPU/toCPU staging transfers), which is not part of
the analysed sources, are modelled from the specification and marked as such.
-/

namespace Minigpu

/-- gpu::NumType enumeration (gpuh.h).  The integer values used at the C ABI
are fixed by mapIntToNumType in minigpu.cpp and by the tests
(ku16 is 8, ki32 is 5, ku32 is 9). -/
inductive NumType where
  | kf16
  | kf32
  | kf64
  | ki8
  | ki16
  | ki32
  | ki64
  | ku8
  | ku16
  | ku32
  | ku64
  | kUnknown
deriving Repr, DecidableEq

/-- Modelled from the spec: gpu::sizeBytes host element sizes (the gpu helper
library is not among the analysed sources).  The spec's data-model section
gives element sizes 4/8/1/1/2/2/4/4/8/8 for f32..u64; f16 is the usual
half-precision 2 bytes and kUnknown has no size (0). -/
def sizeBytes : NumType → Nat
  | .kf16 => 2
  | .kf32 => 4
  | .kf64 => 8
  | .ki8 => 1
  | .ki16 => 2
  | .ki32 => 4
  | .ki64 => 8
  | .ku8 => 1
  | .ku16 => 2
  | .ku32 => 4
  | .ku64 => 8
  | .kUnknown => 0

/-- State of an mgpu::Buffer (buffer.cpp): device handle present or not,
physical byte size, internal storage type, logical element count, packed
flag. -/
structure BufferState where
  hasBuffer : Bool
  size : Nat
  bufferType : NumType
  length : Nat
  isPacked : Bool
deriving Repr, DecidableEq

/-- The zeroed buffer state set by the Buffer constructor and by the
failure / zero-size branches of Buffer::createBuffer. -/
def nullBufferState : BufferState :=
  { hasBuffer := false, size := 0, bufferType := .kUnknown, length := 0, isPacked := false }

/-- Alignment to 4 bytes: the C++ expression (physicalByteSize + 3) and ~3. -/
def alignUp4 (n : Nat) : Nat := 4 * ((n + 3) / 4)

/-- Common tail of Buffer::createBuffer (buffer.cpp, lines 213-289): the
abort when the length is positive but the size zero, the padding of a
positive size to at least 4 bytes, the alignment up to 4 bytes, the
null-buffer branch for zero size, and otherwise the successful device
creation (wgpuDeviceCreateBuffer is the external driver and is assumed to
succeed). -/
def createBufferCore (physical0 : Nat) (internal : NumType) (len : Nat)
    (packed : Bool) : BufferState :=
  if 0 < len ∧ physical0 = 0 then nullBufferState
  else if alignUp4 (if 0 < physical0 ∧ physical0 < 4 then 4 else physical0) = 0 ∧ len = 0 then
    nullBufferState
  else
    { hasBuffer := true,
      size := alignUp4 (if 0 < physical0 ∧ physical0 < 4 then 4 else physical0),
      bufferType := internal, length := len, isPacked := packed }

/-- Buffer::createBuffer (buffer.cpp, lines 96-289).  The sizeParam is the
number of logical elements for ki8/ku8/ki16/ku16 and for the 64-bit types,
and the requested physical size in bytes for all other types (the comment at
line 92-95 of the source documents exactly this).  8/16-bit types are stored
as one unpacked 32-bit word per logical element (internal i32/u32); 64-bit
types as two words per element. -/
def createBuffer (sizeParam : Nat) (requestedDataType : NumType) : BufferState :=
  match requestedDataType with
  | .ki8 => createBufferCore (sizeParam * 4) .ki32 sizeParam true
  | .ku8 => createBufferCore (sizeParam * 4) .ku32 sizeParam true
  | .ki16 => createBufferCore (sizeParam * 4) .ki32 sizeParam true
  | .ku16 => createBufferCore (sizeParam * 4) .ku32 sizeParam true
  | .kf64 => createBufferCore (sizeParam * 2 * 4) .ku32 sizeParam true
  | .ki64 => createBufferCore (sizeParam * 2 * 4) .ki32 sizeParam true
  | .ku64 => createBufferCore (sizeParam * 2 * 4) .ku32 sizeParam true
  | other =>
    createBufferCore sizeParam other
      (if 0 < sizeBytes other then sizeParam / sizeBytes other else 0) false

/-- required_bytes as the specification words it (for comparison with the
source's createBuffer): count times 4 for the direct types, ceil(count/4)
times 4 for 8-bit, ceil(count/2) times 4 for 16-bit, count times 8 for the
64-bit types. -/
def requiredBytesSpec (t : NumType) (n : Nat) : Nat :=
  match t with
  | .kf32 => n * 4
  | .ki32 => n * 4
  | .ku32 => n * 4
  | .ki8 => ((n + 3) / 4) * 4
  | .ku8 => ((n + 3) / 4) * 4
  | .ki16 => ((n + 1) / 2) * 4
  | .ku16 => ((n + 1) / 2) * 4
  | .kf64 => n * 8
  | .ki64 => n * 8
  | .ku64 => n * 8
  | _ => 0

/-- Buffer::release (buffer.cpp, lines 1606-1620): a live handle is released
and every field zeroed; a null handle leaves the state untouched. -/
def release (b : BufferState) : BufferState :=
  if b.hasBuffer then nullBufferState else b

/-- Buffer::validateReadPreconditions (buffer.cpp, lines 348-361): a read
fails validation (and readSync returns without touching the output) when the
device handle is null or the output pointer is null. -/
def validateReadPreconditions (b : BufferState) (outputNull : Bool) : Bool :=
  if !b.hasBuffer then false
  else if outputNull then false
  else true

/-- Buffer::calculateClampedReadRange (buffer.cpp, lines 424-452): clamps
the requested element count against the logical length; the Bool is the
return value (whether there is anything to read) and the Nat is the clamped
in-out element count. -/
def calculateClampedReadRange (length readElementOffset count : Nat) : Bool × Nat :=
  if length ≤ readElementOffset then (false, 0)
  else
    let clamped := if length < readElementOffset + count then length - readElementOffset else count
    if clamped = 0 then (false, 0) else (true, clamped)

/-- validateWorkgroupDispatchSafety (conversion_kernels.cpp, lines 112-151):
rejects a 1-D dispatch when the workgroup count exceeds 65535 or the total
invocation count exceeds 256 * 65535. -/
def validateWorkgroupDispatchSafety (numElements workgroupSize : Nat) : Bool :=
  if workgroupSize = 0 then false
  else if 65535 < (numElements + workgroupSize - 1) / workgroupSize then false
  else if 256 * 65535 <
      ((numElements + workgroupSize - 1) / workgroupSize) * workgroupSize then false
  else true

/-- The kernelName-dependent source-size rule inside
validateKernelDispatchSafety (conversion_kernels.cpp, lines 64-76): the C++
tests kernelName.find("I8") and then kernelName.find("I16") on the caller's
name string.  The two callers pass "dispatchPackedI8toI32" (which contains
"I8") and "dispatchPackedU8toU32" (which contains neither substring). -/
inductive KernelNameRule where
  | hasI8
  | hasI16
  | other
deriving Repr, DecidableEq

/-- validateKernelDispatchSafety (conversion_kernels.cpp, lines 22-109):
null-handle checks and logical-length checks on the source and destination
buffers, then physical-size checks (each skipped when the respective
buffer type is kUnknown), with the expected source size depending on the
kernel-name substring rule. -/
def validateKernelDispatchSafety (sourceBuffer destBuffer : BufferState)
    (expectedSourceElements expectedDestElements : Nat) (rule : KernelNameRule) : Bool :=
  if ¬sourceBuffer.hasBuffer then false
  else if sourceBuffer.length < expectedSourceElements then false
  else if ¬destBuffer.hasBuffer then false
  else if destBuffer.length < expectedDestElements then false
  else if sourceBuffer.bufferType ≠ .kUnknown ∧
      sourceBuffer.size <
        (match rule with
          | .hasI8 => (expectedSourceElements + 3) / 4 * sizeBytes sourceBuffer.bufferType
          | .hasI16 => (expectedSourceElements + 1) / 2 * sizeBytes sourceBuffer.bufferType
          | .other => expectedSourceElements * sizeBytes sourceBuffer.bufferType) then false
  else if destBuffer.bufferType ≠ .kUnknown ∧
      destBuffer.size < expectedDestElements * sizeBytes destBuffer.bufferType then false
  else true

/-- dispatchPackedI8toI32 (conversion_kernels.cpp, lines 154-233) as the
predicate "the unpack kernel is dispatched": the state validation, the
kernel-dispatch safety validation, and the workgroup-limit validation, in
order.  This dispatcher and dispatchPackedU8toU32 are the only two that
call validateWorkgroupDispatchSafety. -/
def dispatchPackedI8toI32 (packed_input unpacked_output : BufferState) : Bool :=
  if packed_input.bufferType ≠ .ki32 then false
  else if unpacked_output.bufferType ≠ .ki32 then false
  else if ¬unpacked_output.isPacked then false
  else if unpacked_output.length = 0 then false
  else if ¬validateKernelDispatchSafety packed_input unpacked_output
      ((unpacked_output.length + 3) / 4) unpacked_output.length .hasI8 then false
  else if ¬validateWorkgroupDispatchSafety ((unpacked_output.length + 3) / 4) 256 then false
  else true

/-- dispatchPackedU8toU32 (conversion_kernels.cpp, lines 314-372): the
unsigned twin of dispatchPackedI8toI32; it also calls
validateWorkgroupDispatchSafety (its kernel name contains neither "I8" nor
"I16", so the safety validation uses the plain size rule). -/
def dispatchPackedU8toU32 (packed_input unpacked_output : BufferState) : Bool :=
  if packed_input.bufferType ≠ .ku32 then false
  else if unpacked_output.bufferType ≠ .ku32 ∨ ¬unpacked_output.isPacked then false
  else if unpacked_output.length = 0 then false
  else if ¬validateKernelDispatchSafety packed_input unpacked_output
      ((unpacked_output.length + 3) / 4) unpacked_output.length .other then false
  else if ¬validateWorkgroupDispatchSafety ((unpacked_output.length + 3) / 4) 256 then false
  else true

/-- dispatchI32toPackedI8 (conversion_kernels.cpp, lines 237-311): state
validation and physical-size validation only — no workgroup-limit check. -/
def dispatchI32toPackedI8 (unpacked_input packed_output : BufferState) : Bool :=
  if unpacked_input.bufferType ≠ .ki32 ∨ ¬unpacked_input.isPacked then false
  else if packed_output.bufferType ≠ .ki32 then false
  else if unpacked_input.length = 0 then false
  else if unpacked_input.size < unpacked_input.length * 4 then false
  else if packed_output.size < (unpacked_input.length + 3) / 4 * 4 then false
  else true

/-- dispatchU32toPackedU8 (conversion_kernels.cpp, lines 376-433): no
workgroup-limit check. -/
def dispatchU32toPackedU8 (unpacked_input packed_output : BufferState) : Bool :=
  if unpacked_input.bufferType ≠ .ku32 ∨ ¬unpacked_input.isPacked then false
  else if packed_output.bufferType ≠ .ku32 then false
  else if unpacked_input.length = 0 then false
  else if unpacked_input.size < unpacked_input.length * 4 then false
  else if packed_output.size < (unpacked_input.length + 3) / 4 * 4 then false
  else true

/-- dispatchPackedI16toI32 (conversion_kernels.cpp, lines 439-496): no
workgroup-limit check. -/
def dispatchPackedI16toI32 (packed_input unpacked_output : BufferState) : Bool :=
  if packed_input.bufferType ≠ .ki32 then false
  else if unpacked_output.bufferType ≠ .ki32 ∨ ¬unpacked_output.isPacked then false
  else if unpacked_output.length = 0 then false
  else if packed_input.size < (unpacked_output.length + 1) / 2 * 4 then false
  else if unpacked_output.size < unpacked_output.length * 4 then false
  else true

/-- dispatchI32toPackedI16 (conversion_kernels.cpp, lines 500-557): no
workgroup-limit check. -/
def dispatchI32toPackedI16 (unpacked_input packed_output : BufferState) : Bool :=
  if unpacked_input.bufferType ≠ .ki32 ∨ ¬unpacked_input.isPacked then false
  else if packed_output.bufferType ≠ .ki32 then false
  else if unpacked_input.length = 0 then false
  else if unpacked_input.size < unpacked_input.length * 4 then false
  else if packed_output.size < (unpacked_input.length + 1) / 2 * 4 then false
  else true

/-- dispatchPackedU16toU32 (conversion_kernels.cpp, lines 561-616): no
workgroup-limit check. -/
def dispatchPackedU16toU32 (packed_input unpacked_output : BufferState) : Bool :=
  if packed_input.bufferType ≠ .ku32 then false
  else if unpacked_output.bufferType ≠ .ku32 ∨ ¬unpacked_output.isPacked then false
  else if unpacked_output.length = 0 then false
  else if packed_input.size < (unpacked_output.length + 1) / 2 * 4 then false
  else if unpacked_output.size < unpacked_output.length * 4 then false
  else true

/-- dispatchU32toPackedU16 (conversion_kernels.cpp, lines 620-677): no
workgroup-limit check. -/
def dispatchU32toPackedU16 (unpacked_input packed_output : BufferState) : Bool :=
  if unpacked_input.bufferType ≠ .ku32 ∨ ¬unpacked_input.isPacked then false
  else if packed_output.bufferType ≠ .ku32 then false
  else if unpacked_input.length = 0 then false
  else if unpacked_input.size < unpacked_input.length * 4 then false
  else if packed_output.size < (unpacked_input.length + 1) / 2 * 4 then false
  else true

/-- dispatchExpandF64toU32x2 (conversion_kernels.cpp, lines 682-746): no
workgroup-limit check. -/
def dispatchExpandF64toU32x2 (input_f64 output_u32x2 : BufferState) : Bool :=
  if input_f64.bufferType ≠ .kf64 then false
  else if output_u32x2.bufferType ≠ .ku32 ∨ ¬output_u32x2.isPacked then false
  else if input_f64.length = 0 then false
  else if input_f64.size < input_f64.length * 8 then false
  else if output_u32x2.size < input_f64.length * 2 * 4 then false
  else true

/-- dispatchCombineU32x2toF64 (conversion_kernels.cpp, lines 749-807): no
workgroup-limit check. -/
def dispatchCombineU32x2toF64 (input_u32x2 output_f64 : BufferState) : Bool :=
  if input_u32x2.bufferType ≠ .ku32 ∨ ¬input_u32x2.isPacked then false
  else if output_f64.bufferType ≠ .kf64 then false
  else if output_f64.length = 0 then false
  else if input_u32x2.size < output_f64.length * 2 * 4 then false
  else if output_f64.size < output_f64.length * 8 then false
  else true

/-- Buffer::getOriginalDataType (buffer.cpp, lines 293-345): infers the
logical type a packed buffer was created for from its internal type,
length and physical size; returns kUnknown when ambiguous.  (The source's
fall-through between the 8-bit, 16-bit and f64 size checks is flattened
into one if-chain of the conjoined conditions.) -/
def getOriginalDataType (b : BufferState) : NumType :=
  if ¬b.isPacked then b.bufferType
  else if b.bufferType = .ki32 ∨ b.bufferType = .ku32 then
    if b.length * 4 ≤ b.size ∧ b.size < b.length * 4 + 4 ∧
        0 < b.length ∧ (b.length + 3) / 4 * 4 ≤ b.size then
      (if b.bufferType = .ki32 then .ki8 else .ku8)
    else if b.length * 4 ≤ b.size ∧ b.size < b.length * 4 + 4 ∧
        0 < b.length ∧ (b.length + 1) / 2 * 4 ≤ b.size then
      (if b.bufferType = .ki32 then .ki16 else .ku16)
    else if b.bufferType = .ku32 ∧ b.length * 2 * 4 ≤ b.size ∧
        b.size < b.length * 2 * 4 + 4 then .kf64
    else .kUnknown
  else .kUnknown

/-- Buffer::recreateBufferSafely (buffer.cpp, lines 1000-1054): the state
is reset and a new buffer created; the Bool is the return value.  (The
exception-restore branch is unreachable here because the embedded
createBuffer does not throw: a failed creation returns the zeroed state,
exactly as the source's non-exception failure path does.) -/
def recreateBufferSafely (b : BufferState) (newLogicalLength : Nat)
    (newOriginalDataType : NumType) : BufferState × Bool :=
  let nb := createBuffer newLogicalLength newOriginalDataType
  (nb, nb.hasBuffer)

/-- Buffer::ensureBuffer (buffer.cpp, lines 1057-1107): with a live handle
whose inferred original type matches and whose length suffices, the buffer
is kept (length adjusted); otherwise it is recreated; with a null handle a
new device buffer is created.  The Bool is false where the C++ throws. -/
def ensureBuffer (b : BufferState) (requiredLogicalLength : Nat)
    (targetOriginalDataType : NumType) : BufferState × Bool :=
  if b.hasBuffer then
    if getOriginalDataType b = targetOriginalDataType ∧ requiredLogicalLength ≤ b.length then
      ({ b with length := requiredLogicalLength }, true)
    else recreateBufferSafely b requiredLogicalLength targetOriginalDataType
  else
    (createBuffer requiredLogicalLength targetOriginalDataType,
      (createBuffer requiredLogicalLength targetOriginalDataType).hasBuffer)

/-- The effect of Buffer::setData(const int8_t*, byteSize) on the main
buffer's state (buffer.cpp, lines 1183-1283), with numElements = byteSize:
the temporary packed upload buffer of ceil(padded/4) words is created
first (when that fails, the function returns with the main buffer
untouched); then ensureBuffer prepares the main buffer — creating a fresh
device buffer when the handle is null — and the dispatched unpack kernel
writes into it without further state change.  When ensureBuffer throws,
setData catches and returns, leaving the state ensureBuffer produced. -/
def setDataInt8State (b : BufferState) (numElements : Nat) : BufferState :=
  if ¬(createBuffer ((numElements + 3) / 4 * 4 / 4 * 4) .ki32).hasBuffer then b
  else (ensureBuffer b numElements .ki8).1

/-- A 32-bit left shift as performed on WGSL i32 values, at the level of
bit patterns: shift and wrap modulo 2^32. -/
def shl32 (x s : Nat) : Nat := (x <<< s) % 2 ^ 32

/-- A 32-bit arithmetic right shift at the level of bit patterns: a clear
sign bit gives a logical shift; a set sign bit fills the vacated top s bits
with ones. -/
def asr32 (x s : Nat) : Nat :=
  if x < 2 ^ 31 then x >>> s else x >>> s + (2 ^ 32 - 2 ^ (32 - s))

/-- sign_extend_i8 from kPackedInt8ToInt32Kernel (conversion_kernels.h,
line 18): (val << 24) >> 24 in the 32-bit signed domain. -/
def signExtendI8 (v : Nat) : Nat := asr32 (shl32 v 24) 24

/-- sign_extend_i16 from kPackedInt16ToInt32Kernel (conversion_kernels.h,
line 171): (val << 16) >> 16 in the 32-bit signed domain. -/
def signExtendI16 (v : Nat) : Nat := asr32 (shl32 v 16) 16

/-- The mathematical sign extension of the low 8 bits of a word, written as
a 32-bit two's-complement bit pattern (the reference value for the claim
about sign_extend_i8). -/
def mathSextByte (w : Nat) : Nat :=
  if w % 256 < 128 then w % 256 else 2 ^ 32 - 256 + w % 256

/-- The signed value of an 8-bit two's-complement pattern. -/
def patToInt8 (b : Nat) : Int :=
  if b % 256 < 128 then (b % 256 : Int) else (b % 256 : Int) - 256

/-- The 8-bit two's-complement pattern of a signed value. -/
def int8ToPat (v : Int) : Nat := (v % 256).toNat

/-- Modelled from the spec: the CPU-side packing performed by gpu::toGPU for
8-bit uploads (the gpu helper library is not among the analysed sources): a
zero-initialised staging vector of ceil(count/4) 32-bit words, where word
i/4, byte lane i%4 receives the low 8 bits of element i.  Buffer::setData
for 8-bit types additionally zero-pads the host array to a multiple of 4,
which the default value 0 of the missing lanes models. -/
def packWords8 (a : List Nat) : List Nat :=
  (List.range ((a.length + 3) / 4)).map fun j =>
    a.getD (4 * j) 0 % 256 + a.getD (4 * j + 1) 0 % 256 * 2 ^ 8 +
      a.getD (4 * j + 2) 0 % 256 * 2 ^ 16 + a.getD (4 * j + 3) 0 % 256 * 2 ^ 24

/-- Modelled from the spec: the CPU-side packing performed by gpu::toGPU for
16-bit uploads: ceil(count/2) zero-initialised words, word i/2 lane i%2. -/
def packWords16 (a : List Nat) : List Nat :=
  (List.range ((a.length + 1) / 2)).map fun j =>
    a.getD (2 * j) 0 % 65536 + a.getD (2 * j + 1) 0 % 65536 * 2 ^ 16

/-- kPackedInt8ToInt32Kernel (conversion_kernels.h, lines 13-56) as a
function on word lists: invocation packed_idx reads word packed_idx and
writes sign_extend_i8((packed_val >> 8k) & 0xFF) to output 4*packed_idx+k
for every lane k within the logical length; output element i therefore
comes from word i/4, lane i%4.  (The kernel's bound check packed_idx <
arrayLength(packed_input) holds whenever the packed input covers the
logical range, which the dispatchers' safety validation guarantees.) -/
def kernelUnpackI8 (ws : List Nat) (n : Nat) : List Nat :=
  (List.range n).map fun i => signExtendI8 ((ws.getD (i / 4) 0 >>> (8 * (i % 4))) &&& 0xFF)

/-- kPackedUInt8ToUInt32Kernel (conversion_kernels.h, lines 105-131): as
kernelUnpackI8 but zero-extending, (packed_val >> 8k) & 0xFFu. -/
def kernelUnpackU8 (ws : List Nat) (n : Nat) : List Nat :=
  (List.range n).map fun i => (ws.getD (i / 4) 0 >>> (8 * (i % 4))) &&& 0xFF

/-- kPackedInt16ToInt32Kernel (conversion_kernels.h, lines 167-189):
sign_extend_i16((packed_val >> 16k) & 0xFFFF) from word i/2, lane i%2. -/
def kernelUnpackI16 (ws : List Nat) (n : Nat) : List Nat :=
  (List.range n).map fun i => signExtendI16 ((ws.getD (i / 2) 0 >>> (16 * (i % 2))) &&& 0xFFFF)

/-- kPackedUInt16ToUInt32Kernel (conversion_kernels.h, lines 217-243):
zero-extending 16-bit unpack. -/
def kernelUnpackU16 (ws : List Nat) (n : Nat) : List Nat :=
  (List.range n).map fun i => (ws.getD (i / 2) 0 >>> (16 * (i % 2))) &&& 0xFFFF

/-- kInt32ToPackedInt8Kernel (conversion_kernels.h, lines 59-103), one
word: invocation j ORs (unpacked_input[4j+k] & 0xFF) << 8k into an
accumulator that starts at 0, skipping lanes at or past the logical length
n (a skipped lane contributes 0). -/
def kernelPackI8Word (u : List Nat) (n j : Nat) : Nat :=
  (((0 ||| (if 4 * j < n then u.getD (4 * j) 0 &&& 0xFF else 0) <<< 0) |||
      (if 4 * j + 1 < n then u.getD (4 * j + 1) 0 &&& 0xFF else 0) <<< 8) |||
    (if 4 * j + 2 < n then u.getD (4 * j + 2) 0 &&& 0xFF else 0) <<< 16) |||
    (if 4 * j + 3 < n then u.getD (4 * j + 3) 0 &&& 0xFF else 0) <<< 24

/-- kInt32ToPackedInt8Kernel over the whole packed output array of m words
(m is arrayLength(packed_output)). -/
def kernelPackI8 (u : List Nat) (n m : Nat) : List Nat :=
  (List.range m).map fun j => kernelPackI8Word u n j

/-- readSyncPackedSmallTypes (buffer.cpp, lines 609-644), 8-bit cases:
static_cast to int8_t/uint8_t keeps the low 8 bits of each 32-bit word. -/
def readTruncate8 (xs : List Nat) : List Nat := xs.map (· &&& 0xFF)

/-- readSyncPackedSmallTypes (buffer.cpp, lines 609-644), 16-bit cases:
static_cast to int16_t/uint16_t keeps the low 16 bits. -/
def readTruncate16 (xs : List Nat) : List Nat := xs.map (· &&& 0xFFFF)

/-- Modelled from the spec: gpu::toGPU for 64-bit uploads splits each
64-bit bit pattern little-endian into low = value & 0xFFFFFFFF followed by
high = value >> 32. -/
def packWords64 : List Nat → List Nat
  | [] => []
  | v :: rest => (v &&& 0xFFFFFFFF) :: (v >>> 32) :: packWords64 rest

/-- readSyncExpandedFloat64 / Int64 / Uint64 (buffer.cpp, lines 648-864):
the mapped region is taken as consecutive pairs of 32-bit words and
reassembled little-endian into 64-bit host values (memcpy on a
little-endian host). -/
def join64 : List Nat → List Nat
  | lo :: hi :: rest => (lo + hi * 2 ^ 32) :: join64 rest
  | _ => []

/-- The ten logical data types of the buffer API (kf16 and kUnknown have no
write/read path). -/
def isLogicalType : NumType → Bool
  | .kf16 => false
  | .kUnknown => false
  | _ => true

/-- The number of bit patterns of one host element of each logical type. -/
def elemBound : NumType → Nat
  | .ki8 => 2 ^ 8
  | .ku8 => 2 ^ 8
  | .ki16 => 2 ^ 16
  | .ku16 => 2 ^ 16
  | .kf32 => 2 ^ 32
  | .ki32 => 2 ^ 32
  | .ku32 => 2 ^ 32
  | .kf64 => 2 ^ 64
  | .ki64 => 2 ^ 64
  | .ku64 => 2 ^ 64
  | _ => 0

/-- The end-to-end write-then-read data path of Buffer::setData followed by
Buffer::readSync, per logical type, at the level of host bit patterns: the
CPU upload packing of gpu::toGPU (modelled from the spec), the on-device
unpack kernel from conversion_kernels.h that setData dispatches for 8/16-bit
types, and the CPU read-side truncation or pair reassembly of readSync
(buffer.cpp).  Direct types are a plain memcpy in both directions. -/
def roundTrip : NumType → List Nat → List Nat
  | .ki8, a => readTruncate8 (kernelUnpackI8 (packWords8 a) a.length)
  | .ku8, a => readTruncate8 (kernelUnpackU8 (packWords8 a) a.length)
  | .ki16, a => readTruncate16 (kernelUnpackI16 (packWords16 a) a.length)
  | .ku16, a => readTruncate16 (kernelUnpackU16 (packWords16 a) a.length)
  | .kf64, a => join64 (packWords64 a)
  | .ki64, a => join64 (packWords64 a)
  | .ku64, a => join64 (packWords64 a)
  | .kf32, a => a
  | .ki32, a => a
  | .ku32, a => a
  | _, _ => []

/-- mapIntToNumType (minigpu.cpp, lines 61-90): the C-ABI integer type code
to gpu::NumType mapping; any code outside 0..10 defaults to kf32. -/
def mapIntToNumType (dataType : Int) : NumType :=
  if dataType = 0 then .kf16
  else if dataType = 1 then .kf32
  else if dataType = 2 then .kf64
  else if dataType = 3 then .ki8
  else if dataType = 4 then .ki16
  else if dataType = 5 then .ki32
  else if dataType = 6 then .ki64
  else if dataType = 7 then .ku8
  else if dataType = 8 then .ku16
  else if dataType = 9 then .ku32
  else if dataType = 10 then .ku64
  else .kf32

/-- One entry of ComputeShader::buffers (compute_shader.h BufferBinding):
WGPUBuffer handle (None models nullptr; device handles are identified by a
Nat), bound size, offset. -/
structure BufferBinding where
  buffer : Option Nat
  size : Nat
  offset : Nat
deriving Repr, DecidableEq

instance : Inhabited BufferBinding := ⟨⟨none, 0, 0⟩⟩

/-- State of a ComputeShader (compute_shader.h / compute_shader.cpp): the
kernel source, the binding vector, the two dirty bits, one presence flag
per pipeline artifact, and one build counter per artifact (each wgpuDevice
create call of that artifact increments its counter; creation by the
external driver is assumed to succeed). -/
structure ShaderState where
  shaderCode : String
  buffers : List BufferBinding
  pipelineDirty : Bool
  bindingsDirty : Bool
  shaderModule : Bool
  bindGroupLayout : Bool
  pipelineLayout : Bool
  computePipeline : Bool
  bindGroup : Bool
  shaderModuleBuilds : Nat
  bindGroupLayoutBuilds : Nat
  pipelineLayoutBuilds : Nat
  computePipelineBuilds : Nat
  bindGroupBuilds : Nat
deriving Repr, DecidableEq

/-- The freshly constructed ComputeShader: no code, no bindings, both dirty
bits initially true, no artifacts built. -/
def initialShaderState : ShaderState :=
  { shaderCode := "", buffers := [], pipelineDirty := true, bindingsDirty := true,
    shaderModule := false, bindGroupLayout := false, pipelineLayout := false,
    computePipeline := false, bindGroup := false,
    shaderModuleBuilds := 0, bindGroupLayoutBuilds := 0, pipelineLayoutBuilds := 0,
    computePipelineBuilds := 0, bindGroupBuilds := 0 }

/-- ComputeShader::loadKernelString (compute_shader.cpp, lines 53-60): an
empty or unchanged kernel string is a no-op; otherwise the code is stored
and pipelineDirty set. -/
def loadKernelString (s : ShaderState) (k : String) : ShaderState :=
  if k = "" ∨ s.shaderCode = k then s
  else { s with shaderCode := k, pipelineDirty := true }

/-- ComputeShader::setBuffer (compute_shader.cpp, lines 75-97): negative
slot or null buffer handle returns immediately; the binding vector is grown
to tag+1 entries if needed; a slot already holding the same handle returns
without marking bindings dirty (only the pointer is compared, not the
size); otherwise the binding (handle, size, offset 0) is stored and
bindingsDirty set. -/
def setBuffer (s : ShaderState) (tag : Int) (buf : BufferBinding) : ShaderState :=
  if tag < 0 ∨ buf.buffer = none then s
  else
    let t := tag.toNat
    let bufs :=
      if s.buffers.length ≤ t then
        s.buffers ++ List.replicate (t + 1 - s.buffers.length) default
      else s.buffers
    if (bufs.getD t default).buffer = buf.buffer then { s with buffers := bufs }
    else { s with buffers := bufs.set t ⟨buf.buffer, buf.size, 0⟩, bindingsDirty := true }

/-- Whether any enumerated binding slot holds a non-null buffer (the
layoutEntries / bindGroupEntries loops of compute_shader.cpp produce a
non-empty list exactly in this case). -/
def hasNonNullBinding (s : ShaderState) : Bool := s.buffers.any (·.buffer.isSome)

/-- ComputeShader::createShaderModule (compute_shader.cpp, lines 108-130):
reused when present and the pipeline is not dirty; otherwise the old module
is released and a new one built. -/
def createShaderModule (s : ShaderState) : ShaderState × Bool :=
  if s.shaderModule && !s.pipelineDirty then (s, true)
  else ({ s with shaderModule := true, shaderModuleBuilds := s.shaderModuleBuilds + 1 }, true)

/-- ComputeShader::createBindGroupLayout (compute_shader.cpp, lines
132-169): reused when present and the bindings are not dirty; otherwise
released and rebuilt from the non-null slots; an empty entry list fails. -/
def createBindGroupLayout (s : ShaderState) : ShaderState × Bool :=
  if s.bindGroupLayout && !s.bindingsDirty then (s, true)
  else if hasNonNullBinding s then
    ({ s with bindGroupLayout := true, bindGroupLayoutBuilds := s.bindGroupLayoutBuilds + 1 }, true)
  else ({ s with bindGroupLayout := false }, false)

/-- ComputeShader::createPipelineLayout (compute_shader.cpp, lines
171-188): reused when present and the pipeline is not dirty. -/
def createPipelineLayout (s : ShaderState) : ShaderState × Bool :=
  if s.pipelineLayout && !s.pipelineDirty then (s, true)
  else ({ s with pipelineLayout := true, pipelineLayoutBuilds := s.pipelineLayoutBuilds + 1 }, true)

/-- ComputeShader::createComputePipeline (compute_shader.cpp, lines
190-209): reused when present and the pipeline is not dirty. -/
def createComputePipeline (s : ShaderState) : ShaderState × Bool :=
  if s.computePipeline && !s.pipelineDirty then (s, true)
  else ({ s with computePipeline := true, computePipelineBuilds := s.computePipelineBuilds + 1 }, true)

/-- ComputeShader::createBindGroup (compute_shader.cpp, lines 211-246):
reused when present and the bindings are not dirty; otherwise released and
rebuilt from the non-null slots; an empty entry list fails. -/
def createBindGroup (s : ShaderState) : ShaderState × Bool :=
  if s.bindGroup && !s.bindingsDirty then (s, true)
  else if hasNonNullBinding s then
    ({ s with bindGroup := true, bindGroupBuilds := s.bindGroupBuilds + 1 }, true)
  else ({ s with bindGroup := false }, false)

/-- ComputeShader::updatePipelineIfNeeded (compute_shader.cpp, lines
248-267): when pipelineDirty, rebuild shader module, bind-group layout,
pipeline layout and pipeline in sequence (each may internally reuse its
artifact), clear pipelineDirty and force bindingsDirty; when bindingsDirty,
rebuild the bind group and clear bindingsDirty. -/
def updatePipelineIfNeeded (s0 : ShaderState) : ShaderState × Bool :=
  let p : ShaderState × Bool :=
    if s0.pipelineDirty then
      let r1 := createShaderModule s0
      if !r1.2 then r1
      else
        let r2 := createBindGroupLayout r1.1
        if !r2.2 then r2
        else
          let r3 := createPipelineLayout r2.1
          if !r3.2 then r3
          else
            let r4 := createComputePipeline r3.1
            if !r4.2 then r4
            else ({ r4.1 with pipelineDirty := false, bindingsDirty := true }, true)
    else (s0, true)
  if !p.2 then p
  else if p.1.bindingsDirty then
    let r5 := createBindGroup p.1
    if !r5.2 then r5
    else ({ r5.1 with bindingsDirty := false }, true)
  else p

/-- Result of a (synchronous) ComputeShader::dispatch task: the shader
state, whether updatePipelineIfNeeded was reached, and whether a command
buffer was submitted to the queue. -/
structure SyncDispatchOutcome where
  state : ShaderState
  updateAttempted : Bool
  submitted : Bool
deriving Repr, DecidableEq

/-- Result of a ComputeShader::dispatchAsync task: additionally whether the
completion callback was invoked. -/
structure AsyncDispatchOutcome where
  state : ShaderState
  updateAttempted : Bool
  submitted : Bool
  callbackInvoked : Bool
deriving Repr, DecidableEq

/-- ComputeShader::dispatch (compute_shader.cpp, lines 269-323): empty
shader source or a non-positive dimension returns before any pipeline
update; otherwise the pipeline is updated and, if the update and the
transient encoder objects succeed (encoderOk, passOk, cmdOk model the
external driver's create calls), the command buffer is submitted. -/
def dispatchModel (s : ShaderState) (gx gy gz : Int)
    (encoderOk passOk cmdOk : Bool) : SyncDispatchOutcome :=
  if s.shaderCode = "" ∨ gx ≤ 0 ∨ gy ≤ 0 ∨ gz ≤ 0 then ⟨s, false, false⟩
  else
    let u := updatePipelineIfNeeded s
    if !u.2 then ⟨u.1, true, false⟩
    else if !(u.1.computePipeline && u.1.bindGroup) then ⟨u.1, true, false⟩
    else if !encoderOk then ⟨u.1, true, false⟩
    else if !passOk then ⟨u.1, true, false⟩
    else if cmdOk then ⟨u.1, true, true⟩
    else ⟨u.1, true, false⟩

/-- ComputeShader::dispatchAsync (compute_shader.cpp, lines 325-386): as
dispatch, but the callback is invoked on every return path, including the
validation-failure and artifact-creation-failure paths. -/
def dispatchAsyncModel (s : ShaderState) (gx gy gz : Int)
    (encoderOk passOk cmdOk : Bool) : AsyncDispatchOutcome :=
  if s.shaderCode = "" ∨ gx ≤ 0 ∨ gy ≤ 0 ∨ gz ≤ 0 then ⟨s, false, false, true⟩
  else
    let u := updatePipelineIfNeeded s
    if !u.2 then ⟨u.1, true, false, true⟩
    else if !encoderOk then ⟨u.1, true, false, true⟩
    else if !passOk then ⟨u.1, true, false, true⟩
    else if cmdOk then ⟨u.1, true, true, true⟩
    else ⟨u.1, true, false, true⟩

/-- The concrete pipeline-cache run used below: a fresh shader, a non-empty
kernel, one non-null binding at slot 0. -/
def cacheDemoState0 : ShaderState :=
  setBuffer (loadKernelString initialShaderState "a") 0 ⟨some 1, 16, 0⟩

/-- The state after the first updatePipelineIfNeeded (first dispatch). -/
def cacheDemoState1 : ShaderState := (updatePipelineIfNeeded cacheDemoState0).1

/-- The state after changing only the kernel source and updating again. -/
def cacheDemoState2 : ShaderState :=
  (updatePipelineIfNeeded (loadKernelString cacheDemoState1 "b")).1

end Minigpu

namespace Minigpu

/-- Helper: createBufferCore on a size of n unpacked 32-bit words (the
8/16-bit branches of createBuffer). -/
theorem createBufferCore_mul4 (n : Nat) (it : NumType) (pk : Bool) :
    createBufferCore (n * 4) it n pk =
      if n = 0 then nullBufferState
      else { hasBuffer := true, size := n * 4, bufferType := it, length := n, isPacked := pk } := by
  rcases Nat.eq_zero_or_pos n with h | h
  · subst h
    simp [createBufferCore, alignUp4, nullBufferState]
  · have hsmall : ¬(0 < n * 4 ∧ n * 4 < 4) := by omega
    have hsize : alignUp4 (n * 4) = n * 4 := by unfold alignUp4; omega
    unfold createBufferCore
    simp only [if_neg hsmall]
    rw [hsize, if_neg (show ¬(0 < n ∧ n * 4 = 0) by omega),
      if_neg (show ¬(n * 4 = 0 ∧ n = 0) by omega), if_neg (show ¬n = 0 by omega)]

/-- Helper: createBufferCore on a size of n pairs of 32-bit words (the
64-bit branches of createBuffer). -/
theorem createBufferCore_mul8 (n : Nat) (it : NumType) (pk : Bool) :
    createBufferCore (n * 2 * 4) it n pk =
      if n = 0 then nullBufferState
      else { hasBuffer := true, size := n * 8, bufferType := it, length := n, isPacked := pk } := by
  rcases Nat.eq_zero_or_pos n with h | h
  · subst h
    simp [createBufferCore, alignUp4, nullBufferState]
  · have hsmall : ¬(0 < n * 2 * 4 ∧ n * 2 * 4 < 4) := by omega
    have hsize : alignUp4 (n * 2 * 4) = n * 8 := by unfold alignUp4; omega
    unfold createBufferCore
    simp only [if_neg hsmall]
    rw [hsize, if_neg (show ¬(0 < n ∧ n * 2 * 4 = 0) by omega),
      if_neg (show ¬(n * 8 = 0 ∧ n = 0) by omega), if_neg (show ¬n = 0 by omega)]

/-- Helper: createBufferCore on the direct-storage branch, where the size
parameter is a byte count and the length is bytes over the 4-byte element
size. -/
theorem createBufferCore_direct (b : Nat) (it : NumType) :
    createBufferCore b it (b / 4) false =
      if b = 0 then nullBufferState
      else { hasBuffer := true, size := alignUp4 (max b 4), bufferType := it,
             length := b / 4, isPacked := false } := by
  rcases Nat.eq_zero_or_pos b with h | h
  · subst h
    simp [createBufferCore, alignUp4, nullBufferState]
  · have hsize : alignUp4 (if 0 < b ∧ b < 4 then 4 else b) = alignUp4 (max b 4) := by
      split
      · unfold alignUp4; omega
      · unfold alignUp4; congr 1; omega
    have hne : alignUp4 (max b 4) ≠ 0 := by unfold alignUp4; omega
    unfold createBufferCore
    rw [hsize, if_neg (by omega), if_neg (fun hx => hne hx.1), if_neg (by omega)]

/-- C1: the claim's required_bytes sizing fails on the source: createBuffer
stores 8-bit data as one unpacked 32-bit word per element, so createBuffer 2 ki8
allocates 8 physical bytes while required_bytes(i8, 2) is 4; and for direct
types the size parameter is a byte count, so createBuffer 8 kf32 records
logical length 2, not 8. -/
theorem claim_C1_counterexample :
    (createBuffer 2 .ki8).size = 8 ∧ requiredBytesSpec .ki8 2 = 4 ∧
      (createBuffer 8 .kf32).length = 2 := by decide

/-- C1 (amended): createBuffer's size parameter is the logical element count
for the 8/16/64-bit types and a physical byte count for the direct types.
For 8/16-bit types the physical size is count*4 (one unpacked 32-bit word
per element); for 64-bit types it is count*8; in both cases the logical
length is the count.  For the direct types f32/i32/u32 the physical size is
the byte count padded to at least 4 and aligned up to 4, and the logical
length is the byte count divided by 4.  A zero size always yields the null
buffer state. -/
theorem claim_C1 (n : Nat) :
    (createBuffer n .ki8 =
      if n = 0 then nullBufferState else
        { hasBuffer := true, size := n * 4, bufferType := .ki32, length := n, isPacked := true }) ∧
    (createBuffer n .ku8 =
      if n = 0 then nullBufferState else
        { hasBuffer := true, size := n * 4, bufferType := .ku32, length := n, isPacked := true }) ∧
    (createBuffer n .ki16 =
      if n = 0 then nullBufferState else
        { hasBuffer := true, size := n * 4, bufferType := .ki32, length := n, isPacked := true }) ∧
    (createBuffer n .ku16 =
      if n = 0 then nullBufferState else
        { hasBuffer := true, size := n * 4, bufferType := .ku32, length := n, isPacked := true }) ∧
    (createBuffer n .kf64 =
      if n = 0 then nullBufferState else
        { hasBuffer := true, size := n * 8, bufferType := .ku32, length := n, isPacked := true }) ∧
    (createBuffer n .ki64 =
      if n = 0 then nullBufferState else
        { hasBuffer := true, size := n * 8, bufferType := .ki32, length := n, isPacked := true }) ∧
    (createBuffer n .kf32 =
      if n = 0 then nullBufferState else
        { hasBuffer := true, size := alignUp4 (max n 4), bufferType := .kf32,
          length := n / 4, isPacked := false }) ∧
    (createBuffer n .ki32 =
      if n = 0 then nullBufferState else
        { hasBuffer := true, size := alignUp4 (max n 4), bufferType := .ki32,
          length := n / 4, isPacked := false }) ∧
    (createBuffer n .ku32 =
      if n = 0 then nullBufferState else
        { hasBuffer := true, size := alignUp4 (max n 4), bufferType := .ku32,
          length := n / 4, isPacked := false }) := by
  refine ⟨?_, ?_, ?_, ?_, ?_, ?_, ?_, ?_, ?_⟩ <;>
    simp only [createBuffer, sizeBytes] <;>
    first
      | exact createBufferCore_mul4 n _ _
      | exact createBufferCore_mul8 n _ _
      | (rw [if_pos (by decide)]; exact createBufferCore_direct n _)

/-- C1 witness: at n = 2 the amended description evaluates as stated. -/
theorem claim_C1_witness :
    createBuffer 2 .ki8 =
      { hasBuffer := true, size := 2 * 4, bufferType := .ki32, length := 2, isPacked := true } := by
  have h := (claim_C1 2).1
  simpa using h

/-- C3: a read whose element offset is at or past the logical length reads
zero elements (the range computation returns false and count 0, and the
read functions return before touching the output); otherwise the count is
clamped to min(count, length - offset). -/
theorem claim_C3 (n k j : Nat) :
    (n ≤ j → calculateClampedReadRange n j k = (false, 0)) ∧
    (j < n → (calculateClampedReadRange n j k).2 = min k (n - j)) := by
  constructor
  · intro h
    unfold calculateClampedReadRange
    rw [if_pos h]
  · intro h
    unfold calculateClampedReadRange
    rw [if_neg (by omega)]
    rcases Nat.lt_or_ge n (j + k) with hlt | hge
    · simp only [if_pos hlt]
      rw [if_neg (by omega)]
      show n - j = min k (n - j)
      omega
    · simp only [if_neg (Nat.not_lt.mpr hge)]
      by_cases hk : k = 0
      · subst hk
        rw [if_pos rfl]
        show 0 = min 0 (n - j)
        omega
      · rw [if_neg hk]
        show k = min k (n - j)
        omega

/-- C3 witness: length 5, offset 7 reads zero elements; length 5, offset 2,
count 7 clamps to 3 elements. -/
theorem claim_C3_witness :
    calculateClampedReadRange 5 7 9 = (false, 0) ∧
      (calculateClampedReadRange 5 2 7).2 = 3 := by
  refine ⟨(claim_C3 5 9 7).1 (by decide), ?_⟩
  have h := (claim_C3 5 7 2).2 (by decide)
  simpa using h

/-- Helper: at workgroup size 256 the dispatch-safety check fails exactly
when the workgroup count exceeds 65535 (at that size the total-invocations
bound is implied by the X-dimension bound). -/
theorem validateWorkgroup256_false_iff (n : Nat) :
    validateWorkgroupDispatchSafety n 256 = false ↔ 65535 < (n + 255) / 256 := by
  unfold validateWorkgroupDispatchSafety
  constructor
  · intro h
    split at h
    · omega
    · split at h
      · next hgt => omega
      · split at h
        · next hgt => omega
        · exact absurd h (by simp)
  · intro h
    rw [if_neg (by omega), if_pos (by omega)]

/-- C7: the claim fails on the source: only dispatchPackedI8toI32 and
dispatchPackedU8toU32 call validateWorkgroupDispatchSafety, so a 16-bit
unpack dispatch over 16776961 packed elements — whose workgroup count
65536 exceeds the X-dimension limit of 65535, as the validator itself
reports — is nevertheless submitted by dispatchPackedI16toI32. -/
theorem claim_C7_counterexample :
    dispatchPackedI16toI32
        { hasBuffer := true, size := 67107844, bufferType := .ki32, length := 0,
          isPacked := false }
        { hasBuffer := true, size := 134215688, bufferType := .ki32, length := 33553922,
          isPacked := true } = true ∧
      (33553922 + 1) / 2 = 16776961 ∧
      65535 < (16776961 + 255) / 256 ∧
      validateWorkgroupDispatchSafety 16776961 256 = false := by decide

/-- C7 (amended): validateWorkgroupDispatchSafety at workgroup size 256
fails exactly when ceil(n/256) exceeds 65535 in X or the total invocation
count ceil(n/256)*256 exceeds 256*65535; only the two 8-bit unpack
dispatchers consult it, and for them, on buffers that pass the other
validations, the dispatch is rejected exactly when the packed-element
workgroup count exceeds the limit; each of the other eight conversion
kernel dispatchers performs no workgroup-limit check and submits on every
well-formed input of any size, including above those limits. -/
theorem claim_C7 :
    (∀ n : Nat, validateWorkgroupDispatchSafety n 256 = false ↔
      (65535 < (n + 255) / 256 ∨ 256 * 65535 < ((n + 255) / 256) * 256)) ∧
    (∀ (n sp lp su : Nat) (pk : Bool), 0 < n → (n + 3) / 4 ≤ lp → (n + 3) / 4 * 4 ≤ sp →
      n * 4 ≤ su →
      (dispatchPackedI8toI32 ⟨true, sp, .ki32, lp, pk⟩ ⟨true, su, .ki32, n, true⟩ = false ↔
        65535 < ((n + 3) / 4 + 255) / 256)) ∧
    (∀ (n sp lp su : Nat) (pk : Bool), 0 < n → (n + 3) / 4 ≤ lp → (n + 3) / 4 * 4 ≤ sp →
      n * 4 ≤ su →
      (dispatchPackedU8toU32 ⟨true, sp, .ku32, lp, pk⟩ ⟨true, su, .ku32, n, true⟩ = false ↔
        65535 < ((n + 3) / 4 + 255) / 256)) ∧
    (∀ (n s1 s2 l2 : Nat) (p2 : Bool), 0 < n → n * 4 ≤ s1 → (n + 3) / 4 * 4 ≤ s2 →
      dispatchI32toPackedI8 ⟨true, s1, .ki32, n, true⟩ ⟨true, s2, .ki32, l2, p2⟩ = true) ∧
    (∀ (n s1 s2 l2 : Nat) (p2 : Bool), 0 < n → n * 4 ≤ s1 → (n + 3) / 4 * 4 ≤ s2 →
      dispatchU32toPackedU8 ⟨true, s1, .ku32, n, true⟩ ⟨true, s2, .ku32, l2, p2⟩ = true) ∧
    (∀ (n s1 s2 l1 : Nat) (p1 : Bool), 0 < n → (n + 1) / 2 * 4 ≤ s1 → n * 4 ≤ s2 →
      dispatchPackedI16toI32 ⟨true, s1, .ki32, l1, p1⟩ ⟨true, s2, .ki32, n, true⟩ = true) ∧
    (∀ (n s1 s2 l2 : Nat) (p2 : Bool), 0 < n → n * 4 ≤ s1 → (n + 1) / 2 * 4 ≤ s2 →
      dispatchI32toPackedI16 ⟨true, s1, .ki32, n, true⟩ ⟨true, s2, .ki32, l2, p2⟩ = true) ∧
    (∀ (n s1 s2 l1 : Nat) (p1 : Bool), 0 < n → (n + 1) / 2 * 4 ≤ s1 → n * 4 ≤ s2 →
      dispatchPackedU16toU32 ⟨true, s1, .ku32, l1, p1⟩ ⟨true, s2, .ku32, n, true⟩ = true) ∧
    (∀ (n s1 s2 l2 : Nat) (p2 : Bool), 0 < n → n * 4 ≤ s1 → (n + 1) / 2 * 4 ≤ s2 →
      dispatchU32toPackedU16 ⟨true, s1, .ku32, n, true⟩ ⟨true, s2, .ku32, l2, p2⟩ = true) ∧
    (∀ (n s1 s2 l2 : Nat) (p1 : Bool), 0 < n → n * 8 ≤ s1 → n * 2 * 4 ≤ s2 →
      dispatchExpandF64toU32x2 ⟨true, s1, .kf64, n, p1⟩ ⟨true, s2, .ku32, l2, true⟩ = true) ∧
    (∀ (n s1 s2 l1 : Nat) (p2 : Bool), 0 < n → n * 2 * 4 ≤ s1 → n * 8 ≤ s2 →
      dispatchCombineU32x2toF64 ⟨true, s1, .ku32, l1, true⟩ ⟨true, s2, .kf64, n, p2⟩ = true) := by
  refine ⟨?_, ?_, ?_, ?_, ?_, ?_, ?_, ?_, ?_, ?_, ?_⟩
  · intro n
    constructor
    · intro h
      exact Or.inl ((validateWorkgroup256_false_iff n).mp h)
    · intro h
      apply (validateWorkgroup256_false_iff n).mpr
      omega
  · intro n sp lp su pk hn hlp hsp hsu
    have hval : validateKernelDispatchSafety ⟨true, sp, .ki32, lp, pk⟩ ⟨true, su, .ki32, n, true⟩
        ((n + 3) / 4) n .hasI8 = true := by
      unfold validateKernelDispatchSafety
      rw [if_neg (by simp), if_neg (show ¬(lp < (n + 3) / 4) by omega), if_neg (by simp),
        if_neg (show ¬(n < n) by omega),
        if_neg (show ¬(NumType.ki32 ≠ NumType.kUnknown ∧
          sp < ((n + 3) / 4 + 3) / 4 * sizeBytes NumType.ki32) by
            rintro ⟨-, hlt⟩; simp only [sizeBytes] at hlt; omega),
        if_neg (show ¬(NumType.ki32 ≠ NumType.kUnknown ∧ su < n * sizeBytes NumType.ki32) by
            rintro ⟨-, hlt⟩; simp only [sizeBytes] at hlt; omega)]
    unfold dispatchPackedI8toI32
    dsimp only
    rw [if_neg (by simp), if_neg (by simp), if_neg (by simp),
      if_neg (show ¬(n = 0) by omega), if_neg (not_not_intro hval)]
    cases hvw : validateWorkgroupDispatchSafety ((n + 3) / 4) 256
    · rw [if_pos (by simp)]
      exact iff_of_true rfl ((validateWorkgroup256_false_iff ((n + 3) / 4)).mp hvw)
    · rw [if_neg (by simp)]
      refine iff_of_false (by simp) fun hgt => ?_
      rw [(validateWorkgroup256_false_iff ((n + 3) / 4)).mpr hgt] at hvw
      cases hvw
  · intro n sp lp su pk hn hlp hsp hsu
    have hval : validateKernelDispatchSafety ⟨true, sp, .ku32, lp, pk⟩ ⟨true, su, .ku32, n, true⟩
        ((n + 3) / 4) n .other = true := by
      unfold validateKernelDispatchSafety
      rw [if_neg (by simp), if_neg (show ¬(lp < (n + 3) / 4) by omega), if_neg (by simp),
        if_neg (show ¬(n < n) by omega),
        if_neg (show ¬(NumType.ku32 ≠ NumType.kUnknown ∧
          sp < (n + 3) / 4 * sizeBytes NumType.ku32) by
            rintro ⟨-, hlt⟩; simp only [sizeBytes] at hlt; omega),
        if_neg (show ¬(NumType.ku32 ≠ NumType.kUnknown ∧ su < n * sizeBytes NumType.ku32) by
            rintro ⟨-, hlt⟩; simp only [sizeBytes] at hlt; omega)]
    unfold dispatchPackedU8toU32
    dsimp only
    rw [if_neg (by simp), if_neg (by simp), if_neg (show ¬(n = 0) by omega),
      if_neg (not_not_intro hval)]
    cases hvw : validateWorkgroupDispatchSafety ((n + 3) / 4) 256
    · rw [if_pos (by simp)]
      exact iff_of_true rfl ((validateWorkgroup256_false_iff ((n + 3) / 4)).mp hvw)
    · rw [if_neg (by simp)]
      refine iff_of_false (by simp) fun hgt => ?_
      rw [(validateWorkgroup256_false_iff ((n + 3) / 4)).mpr hgt] at hvw
      cases hvw
  · intro n s1 s2 l2 p2 hn h1 h2
    unfold dispatchI32toPackedI8
    dsimp only
    rw [if_neg (by simp), if_neg (by simp), if_neg (show ¬(n = 0) by omega),
      if_neg (show ¬(s1 < n * 4) by omega), if_neg (show ¬(s2 < (n + 3) / 4 * 4) by omega)]
  · intro n s1 s2 l2 p2 hn h1 h2
    unfold dispatchU32toPackedU8
    dsimp only
    rw [if_neg (by simp), if_neg (by simp), if_neg (show ¬(n = 0) by omega),
      if_neg (show ¬(s1 < n * 4) by omega), if_neg (show ¬(s2 < (n + 3) / 4 * 4) by omega)]
  · intro n s1 s2 l1 p1 hn h1 h2
    unfold dispatchPackedI16toI32
    dsimp only
    rw [if_neg (by simp), if_neg (by simp), if_neg (show ¬(n = 0) by omega),
      if_neg (show ¬(s1 < (n + 1) / 2 * 4) by omega), if_neg (show ¬(s2 < n * 4) by omega)]
  · intro n s1 s2 l2 p2 hn h1 h2
    unfold dispatchI32toPackedI16
    dsimp only
    rw [if_neg (by simp), if_neg (by simp), if_neg (show ¬(n = 0) by omega),
      if_neg (show ¬(s1 < n * 4) by omega), if_neg (show ¬(s2 < (n + 1) / 2 * 4) by omega)]
  · intro n s1 s2 l1 p1 hn h1 h2
    unfold dispatchPackedU16toU32
    dsimp only
    rw [if_neg (by simp), if_neg (by simp), if_neg (show ¬(n = 0) by omega),
      if_neg (show ¬(s1 < (n + 1) / 2 * 4) by omega), if_neg (show ¬(s2 < n * 4) by omega)]
  · intro n s1 s2 l2 p2 hn h1 h2
    unfold dispatchU32toPackedU16
    dsimp only
    rw [if_neg (by simp), if_neg (by simp), if_neg (show ¬(n = 0) by omega),
      if_neg (show ¬(s1 < n * 4) by omega), if_neg (show ¬(s2 < (n + 1) / 2 * 4) by omega)]
  · intro n s1 s2 l2 p1 hn h1 h2
    unfold dispatchExpandF64toU32x2
    dsimp only
    rw [if_neg (by simp), if_neg (by simp), if_neg (show ¬(n = 0) by omega),
      if_neg (show ¬(s1 < n * 8) by omega), if_neg (show ¬(s2 < n * 2 * 4) by omega)]
  · intro n s1 s2 l1 p2 hn h1 h2
    unfold dispatchCombineU32x2toF64
    dsimp only
    rw [if_neg (by simp), if_neg (by simp), if_neg (show ¬(n = 0) by omega),
      if_neg (show ¬(s1 < n * 2 * 4) by omega), if_neg (show ¬(s2 < n * 8) by omega)]

/-- C7 witness: a well-formed 8-bit unpack dispatch of 4 elements passes
the limits and is submitted, and the validator itself rejects 16776962
packed elements. -/
theorem claim_C7_witness :
    dispatchPackedI8toI32 ⟨true, 4, .ki32, 1, true⟩ ⟨true, 16, .ki32, 4, true⟩ = true ∧
      validateWorkgroupDispatchSafety 16776962 256 = false := by
  constructor
  · have h := claim_C7.2.1 4 4 1 16 true (by decide) (by decide) (by decide) (by decide)
    cases hg : dispatchPackedI8toI32 ⟨true, 4, .ki32, 1, true⟩ ⟨true, 16, .ki32, 4, true⟩
    · exact absurd (h.mp hg) (by decide)
    · rfl
  · exact (claim_C7.1 16776962).mpr (Or.inl (by decide))

/-- C8: the claim's "code 0 behaves as an alias of f32" fails on the source:
mapIntToNumType 0 is the distinct type kf16, not kf32 (and in createBuffer a
kf16 buffer is sized by sizeBytes kf16 = 2, giving a different logical
length than an f32 buffer of the same byte size). -/
theorem claim_C8_counterexample :
    mapIntToNumType 0 = .kf16 ∧ mapIntToNumType 1 = .kf32 ∧ NumType.kf16 ≠ NumType.kf32 ∧
      (createBuffer 4 (mapIntToNumType 0)).length = 2 ∧
      (createBuffer 4 (mapIntToNumType 1)).length = 1 := by decide

/-- C8 (amended): for every integer code in 0..10 the mapped logical type
is the corresponding entry of the fixed enumeration [f16, f32, f64, i8,
i16, i32, i64, u8, u16, u32, u64] — in particular each code in 1..10 maps
to the type the claim lists, while code 0 maps to the separate f16 type
rather than aliasing f32 — and every code outside 0..10 degrades to f32. -/
theorem claim_C8 :
    (∀ c : Int, 0 ≤ c → c ≤ 10 →
      mapIntToNumType c =
        [NumType.kf16, .kf32, .kf64, .ki8, .ki16, .ki32, .ki64, .ku8, .ku16, .ku32,
          .ku64].getD c.toNat .kUnknown) ∧
    (∀ c : Int, (c < 0 ∨ 10 < c) → mapIntToNumType c = .kf32) := by
  constructor
  · intro c h1 h2
    interval_cases c <;> rfl
  · intro c hc
    have e0 : ¬c = 0 := by omega
    have e1 : ¬c = 1 := by omega
    have e2 : ¬c = 2 := by omega
    have e3 : ¬c = 3 := by omega
    have e4 : ¬c = 4 := by omega
    have e5 : ¬c = 5 := by omega
    have e6 : ¬c = 6 := by omega
    have e7 : ¬c = 7 := by omega
    have e8 : ¬c = 8 := by omega
    have e9 : ¬c = 9 := by omega
    have e10 : ¬c = 10 := by omega
    simp [mapIntToNumType, e0, e1, e2, e3, e4, e5, e6, e7, e8, e9, e10]

/-- C8 witness: code 3 maps to i8 and code 11 is out of range and degrades
to f32. -/
theorem claim_C8_witness : mapIntToNumType 3 = .ki8 ∧ mapIntToNumType 11 = .kf32 := by
  constructor
  · have h := claim_C8.1 3 (by decide) (by decide)
    simpa using h
  · exact claim_C8.2 11 (Or.inr (by decide))

/-- Helper: createBuffer on the direct ki32 branch in closed form. -/
theorem createBuffer_ki32_direct (b : Nat) :
    createBuffer b .ki32 =
      if b = 0 then nullBufferState
      else { hasBuffer := true, size := alignUp4 (max b 4), bufferType := .ki32,
             length := b / 4, isPacked := false } := by
  simp only [createBuffer, sizeBytes]
  rw [if_pos (by decide)]
  exact createBufferCore_direct b .ki32

/-- Helper: createBuffer for a positive count of i8 elements in closed
form. -/
theorem createBuffer_ki8_pos (m : Nat) (hm : 0 < m) :
    createBuffer m .ki8 =
      { hasBuffer := true, size := m * 4, bufferType := .ki32, length := m,
        isPacked := true } := by
  show createBufferCore (m * 4) .ki32 m true = _
  rw [createBufferCore_mul4 m .ki32 true, if_neg (by omega)]

/-- C9: the claim's "release is the only operation with an effect" fails on
the source: on the null-handle count-0 buffer, setData(int8_t) with 4
elements reaches ensureBuffer, which creates a fresh 16-byte device buffer
of logical length 4 — an effect of a write, not of release (reachable
through mgpuSetBufferDataInt8). -/
theorem claim_C9_counterexample :
    setDataInt8State (createBuffer 0 .ki8) 4 ≠ createBuffer 0 .ki8 ∧
      (setDataInt8State (createBuffer 0 .ki8) 4).hasBuffer = true ∧
      (setDataInt8State (createBuffer 0 .ki8) 4).size = 16 ∧
      (setDataInt8State (createBuffer 0 .ki8) 4).length = 4 := by decide

/-- C9 (amended): creating a buffer with element count 0 yields the null
buffer state (null device handle, physical size 0, logical length 0) for
every type; on such a buffer read validation fails (readSync returns
without touching the output) and release leaves the state unchanged — but
release is not the only operation with an effect: a typed write with a
positive element count goes through ensureBuffer and creates a fresh
device buffer (for i8, one of count*4 bytes and logical length count). -/
theorem claim_C9 (t : NumType) (outputNull : Bool) :
    (createBuffer 0 t).hasBuffer = false ∧
    (createBuffer 0 t).size = 0 ∧
    (createBuffer 0 t).length = 0 ∧
    validateReadPreconditions (createBuffer 0 t) outputNull = false ∧
    release (createBuffer 0 t) = createBuffer 0 t ∧
    (∀ m : Nat, 0 < m →
      setDataInt8State (createBuffer 0 t) m = createBuffer m .ki8 ∧
      (setDataInt8State (createBuffer 0 t) m).hasBuffer = true ∧
      (setDataInt8State (createBuffer 0 t) m).length = m) := by
  have hz : createBuffer 0 t = nullBufferState := by cases t <;> decide
  rw [hz]
  refine ⟨rfl, rfl, rfl, ?_, rfl, ?_⟩
  · cases outputNull <;> rfl
  · intro m hm
    have htmp : (createBuffer ((m + 3) / 4 * 4 / 4 * 4) .ki32).hasBuffer = true := by
      rw [createBuffer_ki32_direct, if_neg (by omega)]
    have hstep : setDataInt8State nullBufferState m = (ensureBuffer nullBufferState m .ki8).1 := by
      unfold setDataInt8State
      rw [if_neg (not_not_intro htmp)]
    have hens : (ensureBuffer nullBufferState m .ki8).1 = createBuffer m .ki8 := by
      unfold ensureBuffer
      rw [if_neg (by decide)]
    have he := hstep.trans hens
    refine ⟨he, ?_, ?_⟩ <;> rw [he, createBuffer_ki8_pos m hm]

/-- C9 witness: on the concrete count-0 f32 buffer, read validation fails,
and a 4-element i8 write produces the 4-element i8 buffer. -/
theorem claim_C9_witness :
    validateReadPreconditions (createBuffer 0 .kf32) false = false ∧
      setDataInt8State (createBuffer 0 .kf32) 4 = createBuffer 4 .ki8 := by
  refine ⟨(claim_C9 .kf32 false).2.2.2.1, ?_⟩
  exact ((claim_C9 .kf32 false).2.2.2.2.2 4 (by decide)).1

/-- Helper: closed form of the kernel's 8-bit sign extension on a byte. -/
theorem signExtendI8_eq (b : Nat) (hb : b < 256) :
    signExtendI8 b = if b < 128 then b else 2 ^ 32 - 256 + b := by
  unfold signExtendI8 shl32 asr32
  simp only [Nat.shiftLeft_eq, Nat.shiftRight_eq_div_pow]
  rw [Nat.mod_eq_of_lt (by omega)]
  rcases Nat.lt_or_ge b 128 with h | h
  · rw [if_pos (by omega), if_pos h]
    omega
  · rw [if_neg (by omega), if_neg (by omega)]
    omega

/-- Helper: closed form of the kernel's 16-bit sign extension. -/
theorem signExtendI16_eq (b : Nat) (hb : b < 65536) :
    signExtendI16 b = if b < 32768 then b else 2 ^ 32 - 65536 + b := by
  unfold signExtendI16 shl32 asr32
  simp only [Nat.shiftLeft_eq, Nat.shiftRight_eq_div_pow]
  rw [Nat.mod_eq_of_lt (by omega)]
  rcases Nat.lt_or_ge b 32768 with h | h
  · rw [if_pos (by omega), if_pos h]
    omega
  · rw [if_neg (by omega), if_neg (by omega)]
    omega

/-- Helper: truncating the sign-extended byte back to 8 bits recovers it. -/
theorem signExtendI8_and (b : Nat) (hb : b < 256) : signExtendI8 b &&& 255 = b := by
  rw [signExtendI8_eq b hb, Nat.and_pow_two_sub_one_eq_mod _ 8]
  split <;> omega

/-- Helper: truncating the sign-extended 16-bit value back recovers it. -/
theorem signExtendI16_and (b : Nat) (hb : b < 65536) : signExtendI16 b &&& 65535 = b := by
  rw [signExtendI16_eq b hb, Nat.and_pow_two_sub_one_eq_mod _ 16]
  split <;> omega

/-- Helper: an OR with a shifted value whose low bits are free is an
addition. -/
theorem lor_lt_add (x0 x1 s : Nat) (h : x0 < 2 ^ s) : x0 ||| x1 <<< s = x0 + x1 * 2 ^ s := by
  rw [Nat.shiftLeft_eq, Nat.lor_comm, mul_comm, ← Nat.mul_add_lt_is_or h x1]
  omega

/-- Helper: masking to 8 bits bounds the value. -/
theorem and255_lt (y : Nat) : y &&& 255 < 256 := by
  have h := Nat.and_le_right (n := y) (m := 255)
  omega

/-- Helper: masking to 16 bits bounds the value. -/
theorem and65535_lt (y : Nat) : y &&& 65535 < 65536 := by
  have h := Nat.and_le_right (n := y) (m := 65535)
  omega

/-- Helper: extracting byte lane k from a word of four byte lanes. -/
theorem word8_extract (x0 x1 x2 x3 k : Nat) (h0 : x0 < 256) (h1 : x1 < 256)
    (h2 : x2 < 256) (h3 : x3 < 256) (hk : k < 4) :
    ((x0 + x1 * 2 ^ 8 + x2 * 2 ^ 16 + x3 * 2 ^ 24) >>> (8 * k)) &&& 255 =
      if k = 0 then x0 else if k = 1 then x1 else if k = 2 then x2 else x3 := by
  rw [Nat.shiftRight_eq_div_pow, Nat.and_pow_two_sub_one_eq_mod _ 8]
  interval_cases k <;> norm_num <;> omega

/-- Helper: extracting 16-bit lane k from a word of two lanes. -/
theorem word16_extract (x0 x1 k : Nat) (h0 : x0 < 65536) (h1 : x1 < 65536) (hk : k < 2) :
    ((x0 + x1 * 2 ^ 16) >>> (16 * k)) &&& 65535 = if k = 0 then x0 else x1 := by
  rw [Nat.shiftRight_eq_div_pow, Nat.and_pow_two_sub_one_eq_mod _ 16]
  interval_cases k <;> norm_num <;> omega

/-- Helper: the word holding element i of the 8-bit upload packing, and the
extraction of the element's byte lane from it. -/
theorem packWords8_extract (a : List Nat) (i : Nat) (hi : i < a.length) :
    ((packWords8 a).getD (i / 4) 0 >>> (8 * (i % 4))) &&& 255 = a.getD i 0 % 256 := by
  have hj : i / 4 < (a.length + 3) / 4 := by omega
  have hw : (packWords8 a).getD (i / 4) 0 =
      a.getD (4 * (i / 4)) 0 % 256 + a.getD (4 * (i / 4) + 1) 0 % 256 * 2 ^ 8 +
        a.getD (4 * (i / 4) + 2) 0 % 256 * 2 ^ 16 +
        a.getD (4 * (i / 4) + 3) 0 % 256 * 2 ^ 24 := by
    rw [List.getD_eq_getElem _ _ (by simpa [packWords8] using hj)]
    simp [packWords8]
  rw [hw, word8_extract _ _ _ _ _ (by omega) (by omega) (by omega) (by omega) (by omega)]
  rcases (by omega : i % 4 = 0 ∨ i % 4 = 1 ∨ i % 4 = 2 ∨ i % 4 = 3) with hr | hr | hr | hr
  · rw [hr]
    norm_num
    rw [show 4 * (i / 4) = i by omega]
  · rw [hr]
    norm_num
    rw [show 4 * (i / 4) + 1 = i by omega]
  · rw [hr]
    norm_num
    rw [show 4 * (i / 4) + 2 = i by omega]
  · rw [hr]
    norm_num
    rw [show 4 * (i / 4) + 3 = i by omega]

/-- Helper: the word holding element i of the 16-bit upload packing. -/
theorem packWords16_extract (a : List Nat) (i : Nat) (hi : i < a.length) :
    ((packWords16 a).getD (i / 2) 0 >>> (16 * (i % 2))) &&& 65535 = a.getD i 0 % 65536 := by
  have hj : i / 2 < (a.length + 1) / 2 := by omega
  have hw : (packWords16 a).getD (i / 2) 0 =
      a.getD (2 * (i / 2)) 0 % 65536 + a.getD (2 * (i / 2) + 1) 0 % 65536 * 2 ^ 16 := by
    rw [List.getD_eq_getElem _ _ (by simpa [packWords16] using hj)]
    simp [packWords16]
  rw [hw, word16_extract _ _ _ (by omega) (by omega) (by omega)]
  rcases (by omega : i % 2 = 0 ∨ i % 2 = 1) with hr | hr
  · rw [hr]
    norm_num
    rw [show 2 * (i / 2) = i by omega]
  · rw [hr]
    norm_num
    rw [show 2 * (i / 2) + 1 = i by omega]

/-- Helper: the 8-bit write-then-read path is the identity on byte
patterns. -/
theorem roundTrip_ki8 (a : List Nat) (ha : ∀ x ∈ a, x < 256) : roundTrip .ki8 a = a := by
  show readTruncate8 (kernelUnpackI8 (packWords8 a) a.length) = a
  unfold readTruncate8 kernelUnpackI8
  apply List.ext_getElem (by simp)
  intro i h1 h2
  simp only [List.getElem_map, List.getElem_range]
  rw [packWords8_extract a i h2, List.getD_eq_getElem _ _ h2,
    Nat.mod_eq_of_lt (ha _ (List.getElem_mem h2))]
  exact signExtendI8_and _ (ha _ (List.getElem_mem h2))

/-- Helper: the unsigned 8-bit path is the identity on byte patterns. -/
theorem roundTrip_ku8 (a : List Nat) (ha : ∀ x ∈ a, x < 256) : roundTrip .ku8 a = a := by
  show readTruncate8 (kernelUnpackU8 (packWords8 a) a.length) = a
  unfold readTruncate8 kernelUnpackU8
  apply List.ext_getElem (by simp)
  intro i h1 h2
  simp only [List.getElem_map, List.getElem_range]
  rw [packWords8_extract a i h2, List.getD_eq_getElem _ _ h2,
    Nat.mod_eq_of_lt (ha _ (List.getElem_mem h2)), Nat.and_pow_two_sub_one_eq_mod _ 8,
    Nat.mod_eq_of_lt (ha _ (List.getElem_mem h2))]

/-- Helper: the signed 16-bit path is the identity on 16-bit patterns. -/
theorem roundTrip_ki16 (a : List Nat) (ha : ∀ x ∈ a, x < 65536) : roundTrip .ki16 a = a := by
  show readTruncate16 (kernelUnpackI16 (packWords16 a) a.length) = a
  unfold readTruncate16 kernelUnpackI16
  apply List.ext_getElem (by simp)
  intro i h1 h2
  simp only [List.getElem_map, List.getElem_range]
  rw [packWords16_extract a i h2, List.getD_eq_getElem _ _ h2,
    Nat.mod_eq_of_lt (ha _ (List.getElem_mem h2))]
  exact signExtendI16_and _ (ha _ (List.getElem_mem h2))

/-- Helper: the unsigned 16-bit path is the identity on 16-bit patterns. -/
theorem roundTrip_ku16 (a : List Nat) (ha : ∀ x ∈ a, x < 65536) : roundTrip .ku16 a = a := by
  show readTruncate16 (kernelUnpackU16 (packWords16 a) a.length) = a
  unfold readTruncate16 kernelUnpackU16
  apply List.ext_getElem (by simp)
  intro i h1 h2
  simp only [List.getElem_map, List.getElem_range]
  rw [packWords16_extract a i h2, List.getD_eq_getElem _ _ h2,
    Nat.mod_eq_of_lt (ha _ (List.getElem_mem h2)), Nat.and_pow_two_sub_one_eq_mod _ 16,
    Nat.mod_eq_of_lt (ha _ (List.getElem_mem h2))]

/-- Helper: splitting 64-bit patterns into word pairs and reassembling them
is the identity. -/
theorem join64_packWords64 (a : List Nat) (ha : ∀ x ∈ a, x < 2 ^ 64) :
    join64 (packWords64 a) = a := by
  induction a with
  | nil => rfl
  | cons v rest ih =>
    have hv : v < 2 ^ 64 := ha v (by simp)
    show join64 ((v &&& 4294967295) :: (v >>> 32) :: packWords64 rest) = v :: rest
    rw [show join64 ((v &&& 4294967295) :: (v >>> 32) :: packWords64 rest) =
        ((v &&& 4294967295) + (v >>> 32) * 2 ^ 32) :: join64 (packWords64 rest) from rfl]
    rw [ih (fun x hx => ha x (by simp [hx]))]
    congr 1
    rw [Nat.and_pow_two_sub_one_eq_mod _ 32, Nat.shiftRight_eq_div_pow]
    omega

/-- Helper: closed form of one word of the 8-bit pack kernel. -/
theorem kernelPackI8Word_eq (u : List Nat) (n j : Nat) :
    kernelPackI8Word u n j =
      (if 4 * j < n then u.getD (4 * j) 0 &&& 255 else 0) +
        (if 4 * j + 1 < n then u.getD (4 * j + 1) 0 &&& 255 else 0) * 2 ^ 8 +
        (if 4 * j + 2 < n then u.getD (4 * j + 2) 0 &&& 255 else 0) * 2 ^ 16 +
        (if 4 * j + 3 < n then u.getD (4 * j + 3) 0 &&& 255 else 0) * 2 ^ 24 := by
  have b0 : (if 4 * j < n then u.getD (4 * j) 0 &&& 255 else 0) < 256 := by
    split
    · exact and255_lt _
    · omega
  have b1 : (if 4 * j + 1 < n then u.getD (4 * j + 1) 0 &&& 255 else 0) < 256 := by
    split
    · exact and255_lt _
    · omega
  have b2 : (if 4 * j + 2 < n then u.getD (4 * j + 2) 0 &&& 255 else 0) < 256 := by
    split
    · exact and255_lt _
    · omega
  unfold kernelPackI8Word
  rw [Nat.zero_or, Nat.shiftLeft_zero]
  rw [lor_lt_add _ _ 8 (by omega), lor_lt_add _ _ 16 (by omega), lor_lt_add _ _ 24 (by omega)]

/-- Helper: the pack kernel followed by the unpack kernel restores every
element that is a sign-extended byte. -/
theorem kernelPackUnpackI8 (u : List Nat)
    (hu : ∀ x ∈ u, signExtendI8 (x &&& 255) = x) :
    kernelUnpackI8 (kernelPackI8 u u.length ((u.length + 3) / 4)) u.length = u := by
  unfold kernelUnpackI8 kernelPackI8
  apply List.ext_getElem (by simp)
  intro i h1 h2
  simp only [List.getElem_map, List.getElem_range]
  have hj : i / 4 < (u.length + 3) / 4 := by omega
  have hw : ((List.range ((u.length + 3) / 4)).map fun j => kernelPackI8Word u u.length j).getD
      (i / 4) 0 = kernelPackI8Word u u.length (i / 4) := by
    rw [List.getD_eq_getElem _ _ (by simpa using hj)]
    simp
  rw [hw, kernelPackI8Word_eq]
  have b0 : (if 4 * (i / 4) < u.length then u.getD (4 * (i / 4)) 0 &&& 255 else 0) < 256 := by
    split
    · exact and255_lt _
    · omega
  have b1 : (if 4 * (i / 4) + 1 < u.length then u.getD (4 * (i / 4) + 1) 0 &&& 255 else 0) < 256 := by
    split
    · exact and255_lt _
    · omega
  have b2 : (if 4 * (i / 4) + 2 < u.length then u.getD (4 * (i / 4) + 2) 0 &&& 255 else 0) < 256 := by
    split
    · exact and255_lt _
    · omega
  have b3 : (if 4 * (i / 4) + 3 < u.length then u.getD (4 * (i / 4) + 3) 0 &&& 255 else 0) < 256 := by
    split
    · exact and255_lt _
    · omega
  rw [word8_extract _ _ _ _ _ b0 b1 b2 b3 (by omega)]
  have hmem : signExtendI8 (u.getD i 0 &&& 255) = u[i] := by
    rw [List.getD_eq_getElem _ _ h2]
    exact hu _ (List.getElem_mem h2)
  rcases (by omega : i % 4 = 0 ∨ i % 4 = 1 ∨ i % 4 = 2 ∨ i % 4 = 3) with hr | hr | hr | hr
  · rw [hr, if_pos rfl, show 4 * (i / 4) = i by omega, if_pos h2]
    exact hmem
  · rw [hr, if_neg (by decide), if_pos rfl, show 4 * (i / 4) + 1 = i by omega, if_pos h2]
    exact hmem
  · rw [hr, if_neg (by decide), if_neg (by decide), if_pos rfl,
      show 4 * (i / 4) + 2 = i by omega, if_pos h2]
    exact hmem
  · rw [hr, if_neg (by decide), if_neg (by decide), if_neg (by decide),
      show 4 * (i / 4) + 3 = i by omega, if_pos h2]
    exact hmem

/-- C2: for every logical type, the write-then-read data path (upload
packing, dispatched unpack kernel, read-side truncation or pair reassembly)
is the identity on every host array of in-range bit patterns, so
create-write-read returns the array bit-exactly; and the
int32-to-packed-int8 pack kernel followed by the packed-int8-to-int32
unpack kernel is the identity on every element in i8 range (a sign-extended
byte). -/
theorem claim_C2 :
    (∀ (t : NumType) (a : List Nat), isLogicalType t = true →
        (∀ x ∈ a, x < elemBound t) → roundTrip t a = a) ∧
    (∀ u : List Nat, (∀ x ∈ u, signExtendI8 (x &&& 0xFF) = x) →
        kernelUnpackI8 (kernelPackI8 u u.length ((u.length + 3) / 4)) u.length = u) := by
  constructor
  · intro t a ht ha
    cases t with
    | ki8 => exact roundTrip_ki8 a ha
    | ku8 => exact roundTrip_ku8 a ha
    | ki16 => exact roundTrip_ki16 a ha
    | ku16 => exact roundTrip_ku16 a ha
    | kf64 => exact join64_packWords64 a ha
    | ki64 => exact join64_packWords64 a ha
    | ku64 => exact join64_packWords64 a ha
    | kf32 => rfl
    | ki32 => rfl
    | ku32 => rfl
    | kf16 => exact absurd ht (by simp [isLogicalType])
    | kUnknown => exact absurd ht (by simp [isLogicalType])
  · exact kernelPackUnpackI8

/-- C2 witness: a concrete byte array round-trips bit-exactly through the
i8 path, and the kernel pack/unpack pair restores a concrete pair of
sign-extended words. -/
theorem claim_C2_witness :
    roundTrip .ki8 [1, 255] = [1, 255] ∧
      kernelUnpackI8 (kernelPackI8 [5, 4294967169] 2 1) 2 = [5, 4294967169] := by
  constructor
  · exact claim_C2.1 .ki8 [1, 255] (by decide) (by decide)
  · exact claim_C2.2 [5, 4294967169] (by decide)

/-- C4: the kernel's shift-left-24-then-arithmetic-shift-right-24 sign
extension agrees with the mathematical sign extension of the low 8 bits on
every 32-bit word; consequently writing the byte pattern of -128 as i8 and
reading it back yields -128, not 128. -/
theorem claim_C4 :
    (∀ w : Nat, signExtendI8 (w &&& 0xFF) = mathSextByte w) ∧
    int8ToPat (-128) = 128 ∧
    roundTrip .ki8 [int8ToPat (-128)] = [int8ToPat (-128)] ∧
    patToInt8 ((roundTrip .ki8 [int8ToPat (-128)]).getD 0 0) = -128 ∧
    patToInt8 ((roundTrip .ki8 [int8ToPat (-128)]).getD 0 0) ≠ 128 := by
  refine ⟨?_, by decide, by decide, by decide, by decide⟩
  intro w
  rw [Nat.and_pow_two_sub_one_eq_mod w 8]
  rw [signExtendI8_eq (w % 256) (Nat.mod_lt w (by omega))]
  unfold mathSextByte
  rfl

/-- C5: the claim fails on the source: after a clean first build, changing
only the kernel source and updating rebuilds the shader module, pipeline
and bind group (counters reach 2) but reuses the bind-group layout (its
counter stays 1), because createBindGroupLayout is gated on bindingsDirty,
not pipelineDirty. -/
theorem claim_C5_counterexample :
    cacheDemoState2.shaderModuleBuilds = 2 ∧
    cacheDemoState2.pipelineLayoutBuilds = 2 ∧
    cacheDemoState2.computePipelineBuilds = 2 ∧
    cacheDemoState2.bindGroupBuilds = 2 ∧
    cacheDemoState2.bindGroupLayoutBuilds = 1 := by decide

/-- C5 (amended): (1) with both dirty bits clear, updatePipelineIfNeeded is
the identity, so N consecutive identical dispatches build nothing after the
first; (2) the first update after loading a kernel and binding a buffer
builds each of the five artifacts exactly once; (3) a kernel-source change
sets pipeline_dirty and forces a rebuild of the shader module, pipeline
layout and pipeline, implies bindings_dirty so the bind group is also
rebuilt, but reuses the bind-group layout when the bindings were clean;
(4) a binding-only change rebuilds the bind group alone, leaving every
pipeline artifact untouched. -/
theorem claim_C5 :
    (∀ s : ShaderState, s.pipelineDirty = false → s.bindingsDirty = false →
        updatePipelineIfNeeded s = (s, true)) ∧
    ((updatePipelineIfNeeded cacheDemoState0).2 = true ∧
      cacheDemoState1.shaderModuleBuilds = 1 ∧
      cacheDemoState1.bindGroupLayoutBuilds = 1 ∧
      cacheDemoState1.pipelineLayoutBuilds = 1 ∧
      cacheDemoState1.computePipelineBuilds = 1 ∧
      cacheDemoState1.bindGroupBuilds = 1 ∧
      cacheDemoState1.pipelineDirty = false ∧
      cacheDemoState1.bindingsDirty = false) ∧
    (∀ (s : ShaderState) (k : String),
      s.pipelineDirty = false → s.bindingsDirty = false →
      s.shaderModule = true → s.bindGroupLayout = true → s.pipelineLayout = true →
      s.computePipeline = true → s.bindGroup = true →
      hasNonNullBinding s = true → ¬k = "" → ¬s.shaderCode = k →
      (updatePipelineIfNeeded (loadKernelString s k)).2 = true ∧
      (updatePipelineIfNeeded (loadKernelString s k)).1.shaderModuleBuilds =
        s.shaderModuleBuilds + 1 ∧
      (updatePipelineIfNeeded (loadKernelString s k)).1.bindGroupLayoutBuilds =
        s.bindGroupLayoutBuilds ∧
      (updatePipelineIfNeeded (loadKernelString s k)).1.pipelineLayoutBuilds =
        s.pipelineLayoutBuilds + 1 ∧
      (updatePipelineIfNeeded (loadKernelString s k)).1.computePipelineBuilds =
        s.computePipelineBuilds + 1 ∧
      (updatePipelineIfNeeded (loadKernelString s k)).1.bindGroupBuilds =
        s.bindGroupBuilds + 1 ∧
      (updatePipelineIfNeeded (loadKernelString s k)).1.pipelineDirty = false ∧
      (updatePipelineIfNeeded (loadKernelString s k)).1.bindingsDirty = false ∧
      (updatePipelineIfNeeded (loadKernelString s k)).1.buffers = s.buffers) ∧
    (∀ s : ShaderState, s.pipelineDirty = false → s.bindingsDirty = true →
      hasNonNullBinding s = true →
      updatePipelineIfNeeded s =
        ({ s with bindGroup := true, bindGroupBuilds := s.bindGroupBuilds + 1, bindingsDirty := false }, true)) := by
  refine ⟨?_, by decide, ?_, ?_⟩
  · intro s h1 h2
    simp [updatePipelineIfNeeded, h1, h2]
  · intro s k h1 h2 h3 h4 h5 h6 h7 hb hk1 hk2
    have hload : loadKernelString s k = { s with shaderCode := k, pipelineDirty := true } := by
      unfold loadKernelString
      rw [if_neg (by tauto)]
    have hbe := hb
    simp only [hasNonNullBinding, List.any_eq_true, Bool.decide_eq_true] at hbe
    rw [hload]
    simp [updatePipelineIfNeeded, createShaderModule, createBindGroupLayout,
      createPipelineLayout, createComputePipeline, createBindGroup, hasNonNullBinding,
      h2, h3, h4, h5, h6, h7, hbe]
  · intro s h1 h2 hb
    simp [updatePipelineIfNeeded, createBindGroup, h1, h2, hb]

/-- C5 witness: the steady state after the first build is a fixed point of
updatePipelineIfNeeded. -/
theorem claim_C5_witness :
    updatePipelineIfNeeded cacheDemoState1 = (cacheDemoState1, true) :=
  claim_C5.1 cacheDemoState1 (by decide) (by decide)

/-- C6: dispatch with empty shader source or any non-positive dimension
performs no pipeline update and submits no work, leaving the shader state
unchanged, in both the synchronous and the asynchronous form; and
dispatchAsync invokes its callback on every path, including every
validation-failure and artifact-creation-failure path. -/
theorem claim_C6 (s : ShaderState) (gx gy gz : Int) (encoderOk passOk cmdOk : Bool) :
    (dispatchAsyncModel s gx gy gz encoderOk passOk cmdOk).callbackInvoked = true ∧
    ((s.shaderCode = "" ∨ gx ≤ 0 ∨ gy ≤ 0 ∨ gz ≤ 0) →
      dispatchModel s gx gy gz encoderOk passOk cmdOk = ⟨s, false, false⟩ ∧
      dispatchAsyncModel s gx gy gz encoderOk passOk cmdOk = ⟨s, false, false, true⟩) := by
  constructor
  · unfold dispatchAsyncModel
    dsimp only
    split
    · rfl
    · split
      · rfl
      · split
        · rfl
        · split
          · rfl
          · split <;> rfl
  · intro h
    unfold dispatchModel dispatchAsyncModel
    rw [if_pos h, if_pos h]
    exact ⟨rfl, rfl⟩

/-- C6 witness: a dispatch on a fresh shader (empty source) with positive
dimensions is a no-op, and the async form still fires its callback. -/
theorem claim_C6_witness :
    dispatchModel initialShaderState 1 1 1 true true true =
        ⟨initialShaderState, false, false⟩ ∧
      (dispatchAsyncModel initialShaderState 0 1 1 true true true).callbackInvoked = true := by
  constructor
  · exact ((claim_C6 initialShaderState 1 1 1 true true true).2 (Or.inl rfl)).1
  · exact (claim_C6 initialShaderState 0 1 1 true true true).1

/-- C10: setBuffer is a complete no-op for a negative slot, a null buffer
handle, or a slot already holding the same handle (only the pointer is
compared, so a stale recorded size is kept); only when the handle at the
slot changes does it store (handle, size, offset 0), grow the binding list
to tag+1 entries if needed, set bindingsDirty, and leave every other slot,
the kernel source and pipelineDirty untouched. -/
theorem claim_C10 (s : ShaderState) (tag : Int) (buf : BufferBinding) :
    (tag < 0 → setBuffer s tag buf = s) ∧
    (buf.buffer = none → setBuffer s tag buf = s) ∧
    (0 ≤ tag → buf.buffer ≠ none →
      (s.buffers.getD tag.toNat default).buffer = buf.buffer → setBuffer s tag buf = s) ∧
    (0 ≤ tag → buf.buffer ≠ none →
      (s.buffers.getD tag.toNat default).buffer ≠ buf.buffer →
      (setBuffer s tag buf).bindingsDirty = true ∧
      (setBuffer s tag buf).pipelineDirty = s.pipelineDirty ∧
      (setBuffer s tag buf).shaderCode = s.shaderCode ∧
      (setBuffer s tag buf).buffers.length = max (tag.toNat + 1) s.buffers.length ∧
      (setBuffer s tag buf).buffers.getD tag.toNat default =
        { buffer := buf.buffer, size := buf.size, offset := 0 } ∧
      (∀ i : Nat, i ≠ tag.toNat →
        (setBuffer s tag buf).buffers.getD i default = s.buffers.getD i default)) := by
  refine ⟨?_, ?_, ?_, ?_⟩
  · intro h
    unfold setBuffer
    rw [if_pos (Or.inl h)]
  · intro h
    unfold setBuffer
    rw [if_pos (Or.inr h)]
  · intro h0 hb heq
    unfold setBuffer
    rw [if_neg (by push_neg; exact ⟨by omega, hb⟩)]
    rcases Nat.lt_or_ge tag.toNat s.buffers.length with hlt | hge
    · simp only [if_neg (by omega : ¬s.buffers.length ≤ tag.toNat)]
      rw [if_pos heq]
    · rw [List.getD_eq_default _ _ hge] at heq
      exact absurd heq.symm hb
  · intro h0 hb hne
    unfold setBuffer
    rw [if_neg (by push_neg; exact ⟨by omega, hb⟩)]
    rcases Nat.lt_or_ge tag.toNat s.buffers.length with hlt | hge
    · simp only [if_neg (by omega : ¬s.buffers.length ≤ tag.toNat)]
      rw [if_neg hne]
      refine ⟨rfl, rfl, rfl, by simp; omega, ?_, ?_⟩
      · rw [List.getD_eq_getElem _ _ (by simp; omega),
          List.getElem_set_self (by simp; omega)]
      · intro i hi
        rcases Nat.lt_or_ge i s.buffers.length with hilt | hige
        · rw [List.getD_eq_getElem _ _ (by simp; omega),
            List.getElem_set_ne (fun hcontra => hi hcontra.symm),
            List.getD_eq_getElem _ _ hilt]
        · rw [List.getD_eq_default _ _ (by simp; omega), List.getD_eq_default _ _ hige]
    · have hgrow : (s.buffers ++
          List.replicate (tag.toNat + 1 - s.buffers.length) default).getD tag.toNat default =
          default := by
        rw [List.getD_eq_getElem _ _ (by simp; omega),
          List.getElem_append_right hge, List.getElem_replicate ..]
      simp only [if_pos hge]
      rw [hgrow, if_neg (fun hcontra => hb hcontra.symm)]
      refine ⟨rfl, rfl, rfl, by simp; omega, ?_, ?_⟩
      · rw [List.getD_eq_getElem _ _ (by simp; omega),
          List.getElem_set_self (by simp; omega)]
      · intro i hi
        rcases Nat.lt_or_ge i s.buffers.length with hilt | hige
        · rw [List.getD_eq_getElem _ _ (by simp; omega),
            List.getElem_set_ne (fun hcontra => hi hcontra.symm),
            List.getElem_append_left hilt, List.getD_eq_getElem _ _ hilt]
        · rcases Nat.lt_or_ge i (tag.toNat + 1) with hi2 | hi2
          · rw [List.getD_eq_getElem _ _ (by simp; omega),
              List.getElem_set_ne (fun hcontra => hi hcontra.symm),
              List.getElem_append_right hige, List.getElem_replicate ..,
              List.getD_eq_default _ _ hige]
          · rw [List.getD_eq_default _ _ (by simp; omega), List.getD_eq_default _ _ hige]

/-- C10 witness: on a concrete shader state, re-binding the same handle
with a different size is a no-op, and binding a new handle stores it and
sets bindingsDirty. -/
theorem claim_C10_witness :
    setBuffer { initialShaderState with buffers := [⟨some 1, 16, 0⟩], bindingsDirty := false }
        0 ⟨some 1, 99, 0⟩ =
      { initialShaderState with buffers := [⟨some 1, 16, 0⟩], bindingsDirty := false } ∧
    (setBuffer { initialShaderState with buffers := [⟨some 1, 16, 0⟩], bindingsDirty := false }
        0 ⟨some 2, 8, 0⟩).bindingsDirty = true := by
  constructor
  · exact (claim_C10 _ 0 _).2.2.1 (by decide) (by decide) (by decide)
  · exact ((claim_C10 _ 0 _).2.2.2 (by decide) (by decide) (by decide)).1

end Minigpu
